import Mathlib

/-!
Verification of the eslint-benchmark-suite benchmark orchestration engine.

The development shallowly embeds the JavaScript sources:
* `classifyChanges` from `src/unnamed/part_007` lines 207-264 (identical copy in
  `src/unnamed/part_013` lines 310-360),
* `wilsonScoreInterval` and `chiSquaredTest` from
  `src/benchmarks/ai-security/run-antigravity.js` (and the `run.js` variant of the
  chi-squared critical-value table),
* the checkpoint store (`getCheckpointPath`, `saveCheckpoint`, `loadCheckpoint`,
  the resume-mode scan in `main`),
* the per-model pipeline (`runSingleModel`), the chunked bounded-concurrency model
  runner (`runModelsWithConcurrency`), and the registry-order merge in `runBenchmark`.

Conventions of the embedding:
* JavaScript numbers are modelled by `ℚ` (statistics) or `Nat`/`Int` (counters);
  `Math.sqrt` forces `ℝ` for the Wilson interval.  In `ℚ` division by zero yields 0
  where JavaScript yields NaN/Infinity; the one claim about a zero denominator is
  handled by an explicit predicate over exactly the denominators the source divides by.
* `JSON.parse` results are modelled as `Option`: a stored file either fails to parse
  or yields a typed record.  The filesystem is a function from path strings.
* Console output, ANSI coloring and wall-clock timing fields are I/O and are elided;
  they do not feed back into any data the claims mention.
* Asynchronous `Promise.all` over a chunk is deterministic in the source (results are
  collected in argument order), so the embedding is a pure map over the chunk.
-/

/-- One static-analysis finding as built by `analyzeWithESLint`
(`run-antigravity.js` lines 529-543; `part_007` builds the same record minus
`owasp`/`ruleDescription`, which `classifyChanges` never reads). -/
structure Violation where
  ruleId : String
  severity : String
  message : String
  line : Int
  column : Int
  sourceLine : Option String
  category : String
  cwe : Option String
  cweName : Option String
  cvss : Option ℚ
  cvssLevel : Option String
  owasp : Option String
  ruleDescription : Option String
deriving DecidableEq, Repr

/-- One element of `introducedDetails` (`part_007` lines 249-258). -/
structure IntroducedDetail where
  ruleId : String
  category : String
  cwe : Option String
  cweName : Option String
  cvss : Option ℚ
  sourceLine : Option String
deriving DecidableEq, Repr

/-- The record returned by `classifyChanges` (`part_007` lines 235-263). -/
structure ChangeReport where
  fixed : List String
  fixedCount : Nat
  persisted : List String
  persistedCount : Nat
  introduced : List String
  introducedCount : Nat
  introducedDetails : List IntroducedDetail
  netChange : Int
  isHydra : Bool
  prevTotal : Nat
  currTotal : Nat
deriving DecidableEq, Repr

/-- `[...new Set(xs)]`: deduplicate keeping the first occurrence of each element,
in encounter order, as JavaScript `Set` iteration does.  `seen` is the set of
elements already emitted. -/
def jsSetAux (seen : List String) : List String → List String
  | [] => []
  | x :: xs => if x ∈ seen then jsSetAux seen xs else x :: jsSetAux (x :: seen) xs

/-- `[...new Set(xs)]` for a fresh `Set`. -/
def jsSetToArray (xs : List String) : List String := jsSetAux [] xs

/-- The `prevRuleCounts` / `currRuleCounts` maps of `classifyChanges`
(`part_007` lines 212-220): number of findings carrying a given rule id,
with `counts[r] || 0` read-through for absent keys. -/
def ruleCount (vs : List Violation) (r : String) : Nat :=
  (vs.filter (fun v => v.ruleId = r)).length

/-- `classifyChanges(prevViolations, currViolations)` from `part_007` lines 207-264.
`prevRules`/`currRules` are the `Set`s of rule ids (kept as first-occurrence-ordered
arrays; membership agrees with `Set.has`). -/
def classifyChanges (prevViolations currViolations : List Violation) : ChangeReport :=
  let prevRules := jsSetToArray (prevViolations.map (fun v => v.ruleId))
  let currRules := jsSetToArray (currViolations.map (fun v => v.ruleId))
  let prevRuleCounts := fun r => ruleCount prevViolations r
  let currRuleCounts := fun r => ruleCount currViolations r
  let fixed := prevRules.filter (fun r => ¬ r ∈ currRules)
  let persisted := prevRules.filter (fun r => r ∈ currRules)
  let introduced := currRules.filter (fun r => ¬ r ∈ prevRules)
  { fixed := fixed
    fixedCount := (fixed.map (fun r => prevRuleCounts r)).sum
    persisted := persisted
    persistedCount :=
      (persisted.map (fun r => min (prevRuleCounts r) (currRuleCounts r))).sum
    introduced := introduced
    introducedCount := (introduced.map (fun r => currRuleCounts r)).sum
    introducedDetails :=
      (currViolations.filter (fun v => v.ruleId ∈ introduced)).map
        (fun v => ⟨v.ruleId, v.category, v.cwe, v.cweName, v.cvss, v.sourceLine⟩)
    netChange := (currViolations.length : Int) - (prevViolations.length : Int)
    isHydra := decide (0 < introduced.length)
    prevTotal := prevViolations.length
    currTotal := currViolations.length }

/-! ## Statistics library -/

/-- JavaScript `Math.round`: round half toward positive infinity. -/
def jsRound (q : ℚ) : ℤ := ⌊q + 1/2⌋

/-- The record returned by `wilsonScoreInterval`. -/
structure WilsonInterval where
  lower : ℝ
  upper : ℝ
  point : ℝ

/-- `wilsonScoreInterval(successes, n, z)` from `run-antigravity.js` lines 137-149
(identical in `run.js` lines 44-56).  `Math.sqrt` forces the real numbers. -/
noncomputable def wilsonScoreInterval (successes n : ℕ) (z : ℝ) : WilsonInterval :=
  if n = 0 then ⟨0, 0, 0⟩ else
    let p : ℝ := (successes : ℝ) / (n : ℝ)
    let den : ℝ := 1 + z * z / (n : ℝ)
    let center : ℝ := (p + z * z / (2 * (n : ℝ))) / den
    let margin : ℝ :=
      z * Real.sqrt (p * (1 - p) / (n : ℝ) + z * z / (4 * (n : ℝ) * (n : ℝ))) / den
    ⟨max 0 ((center - margin) * 100), min 100 ((center + margin) * 100), p * 100⟩

/-- `wilsonScoreInterval` at the default argument `z = 1.96`. -/
noncomputable def wilsonScoreIntervalDefault (successes n : ℕ) : WilsonInterval :=
  wilsonScoreInterval successes n (196 / 100)

/-- One entry of the `modelData` argument of `chiSquaredTest`. -/
structure GroupData where
  successes : ℚ
  total : ℚ
deriving DecidableEq, Repr

/-- The `pValue` field of a chi-squared result: the number `1` in the trivial branch,
a text such as "< 0.05" otherwise. -/
inductive PValue
  | num (v : ℚ)
  | text (s : String)
deriving DecidableEq, Repr

/-- The record returned by `chiSquaredTest`. -/
structure ChiSquaredResult where
  chiSquared : ℚ
  df : Nat
  pValue : PValue
  significant : Bool
deriving DecidableEq, Repr

/-- The raw statistic accumulated by `chiSquaredTest` (`run-antigravity.js` lines
159-180, identical in `run.js` lines 68-89): observed/expected 2-cell rows summed
over the groups.  `modelData` is the object as an insertion-ordered association
list.  Division is exact in `ℚ`; a zero denominator (NaN/Infinity in JavaScript)
is covered by `chiSquaredHasZeroExpectedCell` below. -/
def chiSquaredStat (modelData : List (String × GroupData)) : ℚ :=
  let totalSuccesses := (modelData.map (fun m => m.2.successes)).sum
  let totalFailures := (modelData.map (fun m => m.2.total - m.2.successes)).sum
  let grandTotal := totalSuccesses + totalFailures
  (modelData.map (fun m =>
    let observed := [m.2.successes, m.2.total - m.2.successes]
    let expected := [m.2.total * totalSuccesses / grandTotal,
                     m.2.total * totalFailures / grandTotal]
    ((observed.zip expected).map (fun oe => (oe.1 - oe.2) ^ 2 / oe.2)).sum)).sum

/-- The critical-value lookup of `run-antigravity.js` lines 183-184:
`{1: 3.841, 2: 5.991, 3: 7.815, 4: 9.488, 5: 11.07}[df] || 5.991`
(a missing key falls back to `5.991`). -/
def criticalValue (df : Nat) : ℚ :=
  if df = 1 then 3841 / 1000
  else if df = 2 then 5991 / 1000
  else if df = 3 then 7815 / 1000
  else if df = 4 then 9488 / 1000
  else if df = 5 then 1107 / 100
  else 5991 / 1000

/-- The critical-value lookup of `run.js` lines 92-94:
`{1: 3.841, 2: 5.991, 3: 7.815}[df] || 5.991`. -/
def criticalValueRunJs (df : Nat) : ℚ :=
  if df = 1 then 3841 / 1000
  else if df = 2 then 5991 / 1000
  else if df = 3 then 7815 / 1000
  else 5991 / 1000

/-- `chiSquaredTest(modelData)` from `run-antigravity.js` lines 154-192. -/
def chiSquaredTest (modelData : List (String × GroupData)) : ChiSquaredResult :=
  if modelData.length < 2 then ⟨0, 0, PValue.num 1, false⟩
  else
    let chiSq := chiSquaredStat modelData
    let df := modelData.length - 1
    let significant := decide (criticalValue df < chiSq)
    ⟨(jsRound (chiSq * 1000) : ℚ) / 1000, df,
      if significant then PValue.text "< 0.05" else PValue.text "> 0.05", significant⟩

/-- `chiSquaredTest(modelData)` from `run.js` lines 63-102 — identical except for
the smaller critical-value table. -/
def chiSquaredTestRunJs (modelData : List (String × GroupData)) : ChiSquaredResult :=
  if modelData.length < 2 then ⟨0, 0, PValue.num 1, false⟩
  else
    let chiSq := chiSquaredStat modelData
    let df := modelData.length - 1
    let significant := decide (criticalValueRunJs df < chiSq)
    ⟨(jsRound (chiSq * 1000) : ℚ) / 1000, df,
      if significant then PValue.text "< 0.05" else PValue.text "> 0.05", significant⟩

/-- True when `chiSquaredTest` actually reaches its per-cell division
(`models.length >= 2`) and some denominator `expected[i]` used in
`(o - expected[i])^2 / expected[i]` is zero — in JavaScript that division
produces NaN/Infinity, the source has no guard. -/
def chiSquaredHasZeroExpectedCell (modelData : List (String × GroupData)) : Bool :=
  decide (2 ≤ modelData.length) &&
    (let totalSuccesses := (modelData.map (fun m => m.2.successes)).sum
     let totalFailures := (modelData.map (fun m => m.2.total - m.2.successes)).sum
     let grandTotal := totalSuccesses + totalFailures
     modelData.any (fun m =>
       decide (m.2.total * totalSuccesses / grandTotal = 0) ||
       decide (m.2.total * totalFailures / grandTotal = 0)))

/-! ## Provider registry, environment, prompts -/

/-- One entry of `MODEL_REGISTRY` (`run-antigravity.js` lines 51-124). -/
structure ModelConfig where
  id : String
  provider : String
  cliModel : Option String
  apiModel : Option String
  displayName : String
  tier : String
  color : String
deriving DecidableEq, Repr

/-- One prompt of `PROMPTS` (`prompts.js`). -/
structure PromptCase where
  id : String
  prompt : String
  expectedVulnerabilities : List String
deriving DecidableEq, Repr

/-- JavaScript truthiness of an optional string (`undefined`/`null` and `""` are falsy). -/
def jsTruthyStr (o : Option String) : Bool :=
  match o with
  | none => false
  | some s => decide (s ≠ "")

/-- JavaScript truthiness of an optional number (`undefined`/`null` and `0` are falsy). -/
def jsTruthyNum (o : Option ℚ) : Bool :=
  match o with
  | none => false
  | some q => decide (q ≠ 0)

/-- `process.env.GEMINI_API_KEY || process.env.GOOGLE_API_KEY` truthiness
(`run-antigravity.js` lines 711-713). -/
def hasGoogleApiKey (env : String → Option String) : Bool :=
  jsTruthyStr (env ("GEMINI_API_KEY")) || jsTruthyStr (env ("GOOGLE_API_KEY"))

/-! ## Per-model result accumulation (`runSingleModel`, lines 702-1051) -/

/-- The fixed-key `bySeverity` object (line 755). -/
structure SeverityCounts where
  critical : Nat
  high : Nat
  medium : Nat
  low : Nat
deriving DecidableEq, Repr

/-- One `byCWE` entry (lines 819-823). -/
structure CweEntry where
  count : Nat
  name : Option String
deriving DecidableEq, Repr

/-- One `byRule` entry (lines 850-858). -/
structure RuleEntry where
  count : Nat
  cwe : Option String
  cvss : Option ℚ
  severity : Option String
deriving DecidableEq, Repr

/-- `obj[k] = (obj[k] || 0) + 1` on an insertion-ordered object. -/
def bumpCount (l : List (String × Nat)) (k : String) : List (String × Nat) :=
  match l with
  | [] => [(k, 1)]
  | (k', v) :: rest =>
    if k' = k then (k', v + 1) :: rest else (k', v) :: bumpCount rest k

/-- `byCWE[c] = byCWE[c] || {count: 0, name}; byCWE[c].count++`. -/
def bumpCwe (l : List (String × CweEntry)) (k : String) (name : Option String) :
    List (String × CweEntry) :=
  match l with
  | [] => [(k, ⟨1, name⟩)]
  | (k', e) :: rest =>
    if k' = k then (k', ⟨e.count + 1, e.name⟩) :: rest else (k', e) :: bumpCwe rest k name

/-- `byRule[r] = byRule[r] || {count: 0, cwe, cvss, severity}; byRule[r].count++`. -/
def bumpRule (l : List (String × RuleEntry)) (k : String)
    (cwe : Option String) (cvss : Option ℚ) (severity : Option String) :
    List (String × RuleEntry) :=
  match l with
  | [] => [(k, ⟨1, cwe, cvss, severity⟩)]
  | (k', e) :: rest =>
    if k' = k then (k', ⟨e.count + 1, e.cwe, e.cvss, e.severity⟩) :: rest
    else (k', e) :: bumpRule rest k cwe cvss severity

/-- `Set.add`: append if absent (JavaScript `Set` keeps insertion order). -/
def setAdd (l : List String) (x : String) : List String :=
  if x ∈ l then l else l ++ [x]

/-- `const level = v.cvssLevel.toLowerCase(); if (bySeverity[level] !== undefined)
bySeverity[level]++` (lines 834-839). -/
def bumpSeverity (s : SeverityCounts) (level : String) : SeverityCounts :=
  if level = "critical" then { s with critical := s.critical + 1 }
  else if level = "high" then { s with high := s.high + 1 }
  else if level = "medium" then { s with medium := s.medium + 1 }
  else if level = "low" then { s with low := s.low + 1 }
  else s

/-- Successful remediation sub-record (lines 918-927). -/
structure RemediationSuccess where
  fixedCode : String
  originalVulnerabilityCount : Nat
  remainingVulnerabilityCount : Nat
  fixedAllVulnerabilities : Bool
  fixRate : String
  remainingViolations : List Violation
deriving DecidableEq, Repr

/-- The `remediation` field attached to an iteration: the success record, or the
`{error}` record of the inner catch (lines 935-940). -/
inductive RemediationRecord
  | ok (r : RemediationSuccess)
  | err (message : String)
deriving DecidableEq, Repr

/-- One element of `promptResults.iterations`: the success record of lines 870-877
(timing elided) or the `{iteration, error}` record of lines 954-957. -/
inductive IterationRecord
  | ok (iteration : Nat) (hasVulnerabilities : Bool) (vulnerabilityCount : Nat)
      (violations : List Violation) (code : String)
      (remediation : Option RemediationRecord)
  | err (iteration : Nat) (message : String)
deriving DecidableEq, Repr

/-- One element of `modelResults.byPrompt` (lines 779-784). -/
structure PromptResults where
  id : String
  prompt : String
  expectedVulnerabilities : List String
  iterations : List IterationRecord
deriving DecidableEq, Repr

/-- The mutable `modelResults` accumulator (lines 746-770; wall-clock timing fields
`totalGenerationTimeMs`/`generationCount` elided as I/O). -/
structure ModelAccum where
  totalFunctions : Nat
  functionsWithVulnerabilities : Nat
  totalVulnerabilities : Nat
  errors : Nat
  warnings : Nat
  byCategory : List (String × Nat)
  byCWE : List (String × CweEntry)
  byOWASP : List (String × Nat)
  bySeverity : SeverityCounts
  byRule : List (String × RuleEntry)
  uniqueCWEs : List String
  uniqueRules : List String
  totalCVSS : ℚ
  cvssCount : Nat
  byPrompt : List PromptResults
  remediationAttempts : Nat
  remediationFullyFixed : Nat
  remediationTotalOriginal : Nat
  remediationTotalRemaining : Nat
deriving DecidableEq, Repr

/-- The zero-initialised accumulator of lines 746-770. -/
def initAccum : ModelAccum :=
  ⟨0, 0, 0, 0, 0, [], [], [], ⟨0, 0, 0, 0⟩, [], [], [], 0, 0, [], 0, 0, 0, 0⟩

/-- The body of `for (const v of violations)` (lines 812-867). -/
def applyViolation (acc : ModelAccum) (v : Violation) : ModelAccum :=
  let acc := { acc with byCategory := bumpCount acc.byCategory v.category }
  let acc :=
    if jsTruthyStr v.cwe then
      { acc with byCWE := bumpCwe acc.byCWE (v.cwe.getD "") v.cweName
                 uniqueCWEs := setAdd acc.uniqueCWEs (v.cwe.getD "") }
    else acc
  let acc :=
    if jsTruthyStr v.owasp then
      { acc with byOWASP := bumpCount acc.byOWASP (v.owasp.getD "") }
    else acc
  let acc :=
    if jsTruthyStr v.cvssLevel then
      { acc with bySeverity := bumpSeverity acc.bySeverity ((v.cvssLevel.getD "").toLower) }
    else acc
  let acc :=
    if v.severity = "error" then { acc with errors := acc.errors + 1 }
    else { acc with warnings := acc.warnings + 1 }
  let acc :=
    if jsTruthyStr (some v.ruleId) then
      { acc with byRule := bumpRule acc.byRule v.ruleId v.cwe v.cvss v.cvssLevel
                 uniqueRules := setAdd acc.uniqueRules v.ruleId }
    else acc
  if jsTruthyNum v.cvss then
    { acc with totalCVSS := acc.totalCVSS + v.cvss.getD 0
               cvssCount := acc.cvssCount + 1 }
  else acc

/-- The two external capabilities as deterministic oracles keyed by
(model id, prompt id, iteration): `generate` stands for
`generateCode` followed by `analyzeWithESLint` (throwing is `Except.error` with the
error message), `remediate` for `remediateCode` followed by `analyzeWithESLint`.
Both return the produced source text and its findings. -/
structure Oracles where
  generate : String → String → Nat → Except String (String × List Violation)
  remediate : String → String → Nat → Except String (String × List Violation)

/-- One loop body of `for (let i = 0; i < iterationsPerPrompt; i++)`
(lines 790-958): try/catch around generation and analysis, accumulator updates,
optional remediation phase with its own try/catch.  Returns the updated
accumulator and the iteration record pushed onto `promptResults.iterations`. -/
def runIteration (oracles : Oracles) (enableRemediation : Bool)
    (modelId promptId : String) (i : Nat) (acc : ModelAccum) :
    ModelAccum × IterationRecord :=
  match oracles.generate modelId promptId i with
  | Except.error e => (acc, IterationRecord.err (i + 1) e)
  | Except.ok (code, violations) =>
    let acc := { acc with totalFunctions := acc.totalFunctions + 1 }
    let acc :=
      if 0 < violations.length then
        violations.foldl applyViolation
          { acc with
              functionsWithVulnerabilities := acc.functionsWithVulnerabilities + 1
              totalVulnerabilities := acc.totalVulnerabilities + violations.length }
      else acc
    if enableRemediation ∧ 0 < violations.length then
      match oracles.remediate modelId promptId i with
      | Except.ok (fixedCode, fixedViolations) =>
        let originalCount := violations.length
        let fixedCount := fixedViolations.length
        let fixedAll := decide (fixedCount = 0)
        let fixRate : ℤ :=
          if 0 < originalCount then
            jsRound ((((originalCount : ℚ) - (fixedCount : ℚ)) / (originalCount : ℚ)) * 100)
          else 100
        ({ acc with
             remediationAttempts := acc.remediationAttempts + 1
             remediationFullyFixed :=
               acc.remediationFullyFixed + (if fixedAll then 1 else 0)
             remediationTotalOriginal := acc.remediationTotalOriginal + originalCount
             remediationTotalRemaining := acc.remediationTotalRemaining + fixedCount },
         IterationRecord.ok (i + 1) true violations.length violations code
           (some (RemediationRecord.ok
             ⟨fixedCode, originalCount, fixedCount, fixedAll,
              toString fixRate ++ "%", fixedViolations⟩)))
      | Except.error e =>
        (acc, IterationRecord.ok (i + 1) true violations.length violations code
          (some (RemediationRecord.err e)))
    else
      (acc, IterationRecord.ok (i + 1) (decide (0 < violations.length))
        violations.length violations code none)

/-- The whole per-prompt iteration loop: fold `runIteration` over
`i = 0 .. iterationsPerPrompt - 1`, collecting the iteration records in order. -/
def runPromptIterations (oracles : Oracles) (enableRemediation : Bool)
    (modelId promptId : String) (iterationsPerPrompt : Nat) (acc : ModelAccum) :
    ModelAccum × List IterationRecord :=
  (List.range iterationsPerPrompt).foldl
    (fun st i =>
      let next := runIteration oracles enableRemediation modelId promptId i st.1
      (next.1, st.2 ++ [next.2]))
    (acc, [])

/-- `modelResults.remediationEffectiveness` (lines 1003-1021). -/
structure RemediationEffectiveness where
  attempts : Nat
  fullyFixed : Nat
  fullyFixedRate : String
  totalOriginalVulnerabilities : Nat
  totalRemainingVulnerabilities : Nat
  overallFixRate : String
deriving DecidableEq, Repr

/-- The final per-model result object handed to the orchestrator: the accumulator
plus the derived statistics of lines 979-1031, with the temporary fields
(`totalCVSS`, `cvssCount`) deleted and the `Set`s converted to arrays. -/
structure ModelResults where
  totalFunctions : Nat
  functionsWithVulnerabilities : Nat
  totalVulnerabilities : Nat
  errors : Nat
  warnings : Nat
  byCategory : List (String × Nat)
  byCWE : List (String × CweEntry)
  byOWASP : List (String × Nat)
  bySeverity : SeverityCounts
  byRule : List (String × RuleEntry)
  uniqueCWEs : List String
  uniqueRules : List String
  byPrompt : List PromptResults
  remediationAttempts : Nat
  remediationFullyFixed : Nat
  remediationTotalOriginal : Nat
  remediationTotalRemaining : Nat
  vulnerabilityRate : String
  vulnerabilityRateNumeric : ℤ
  averageCVSS : Option ℚ
  remediationEffectiveness : Option RemediationEffectiveness
deriving DecidableEq, Repr

/-- Lines 979-1031: derive the model-level statistics from the accumulator. -/
def finalizeResults (acc : ModelAccum) : ModelResults :=
  let vulnRate : ℚ :=
    if 0 < acc.totalFunctions then
      ((acc.functionsWithVulnerabilities : ℚ) / (acc.totalFunctions : ℚ)) * 100
    else 0
  let remediationEffectiveness :=
    if 0 < acc.remediationAttempts then
      let fixRate : ℤ :=
        if 0 < acc.remediationTotalOriginal then
          jsRound ((((acc.remediationTotalOriginal : ℚ) -
            (acc.remediationTotalRemaining : ℚ)) /
            (acc.remediationTotalOriginal : ℚ)) * 100)
        else 0
      some (RemediationEffectiveness.mk acc.remediationAttempts acc.remediationFullyFixed
        (toString (jsRound (((acc.remediationFullyFixed : ℚ) /
          (acc.remediationAttempts : ℚ)) * 100)) ++ "%")
        acc.remediationTotalOriginal acc.remediationTotalRemaining
        (toString fixRate ++ "%"))
    else none
  { totalFunctions := acc.totalFunctions
    functionsWithVulnerabilities := acc.functionsWithVulnerabilities
    totalVulnerabilities := acc.totalVulnerabilities
    errors := acc.errors
    warnings := acc.warnings
    byCategory := acc.byCategory
    byCWE := acc.byCWE
    byOWASP := acc.byOWASP
    bySeverity := acc.bySeverity
    byRule := acc.byRule
    uniqueCWEs := acc.uniqueCWEs
    uniqueRules := acc.uniqueRules
    byPrompt := acc.byPrompt
    remediationAttempts := acc.remediationAttempts
    remediationFullyFixed := acc.remediationFullyFixed
    remediationTotalOriginal := acc.remediationTotalOriginal
    remediationTotalRemaining := acc.remediationTotalRemaining
    vulnerabilityRate := toString (jsRound vulnRate) ++ "%"
    vulnerabilityRateNumeric := jsRound vulnRate
    averageCVSS :=
      if 0 < acc.cvssCount then
        some ((jsRound ((acc.totalCVSS / (acc.cvssCount : ℚ)) * 10) : ℚ) / 10)
      else none
    remediationEffectiveness := remediationEffectiveness }

/-- The static context a benchmark run closes over: environment, registry, prompt
corpus, configuration and the external-capability oracles.  Console streaming
(`streamOutput`) only routes log text and is elided. -/
structure BenchContext where
  env : String → Option String
  registry : String → Option ModelConfig
  promptsOf : String → Option (List PromptCase)
  categories : List String
  iterationsPerPrompt : Nat
  enableRemediation : Bool
  securityContext : Bool
  oracles : Oracles

/-- The value `runSingleModel` resolves with (lines 707, 719, 1050). -/
structure Outcome where
  modelId : String
  modelResults : Option ModelResults
  skipped : Bool
deriving DecidableEq, Repr

/-- The body of `for (const promptConfig of prompts)` (lines 778-976): run all
iterations of one prompt, then push the `promptResults` record onto `byPrompt`. -/
def promptStep (ctx : BenchContext) (modelId : String) (acc : ModelAccum)
    (pc : PromptCase) : ModelAccum :=
  let st := runPromptIterations ctx.oracles ctx.enableRemediation modelId pc.id
    ctx.iterationsPerPrompt acc
  { st.1 with byPrompt := st.1.byPrompt ++
      [⟨pc.id, pc.prompt, pc.expectedVulnerabilities, st.2⟩] }

/-- The body of `for (const category of categories)` (lines 772-977):
`if (!prompts) continue`, then the prompt loop. -/
def categoryStep (ctx : BenchContext) (modelId : String) (acc : ModelAccum)
    (category : String) : ModelAccum :=
  match ctx.promptsOf category with
  | none => acc
  | some prompts => prompts.foldl (promptStep ctx modelId) acc

/-- `runSingleModel(modelId)` (lines 702-1051): unknown-model skip, Google
prerequisite skip, then the category/prompt/iteration fold and finalisation. -/
def runSingleModel (ctx : BenchContext) (modelId : String) : Outcome :=
  match ctx.registry modelId with
  | none => ⟨modelId, none, true⟩
  | some modelConfig =>
    if modelConfig.provider = "google" ∧ hasGoogleApiKey ctx.env = false then
      ⟨modelId, none, true⟩
    else
      ⟨modelId,
        some (finalizeResults (ctx.categories.foldl (categoryStep ctx modelId) initAccum)),
        false⟩

/-- The chunking of `for (let i = 0; i < modelIds.length; i += maxConcurrency)`
with `slice(i, i + maxConcurrency)` (lines 1118-1119).  Meaningful for
`maxConcurrency ≥ 1`; at 0 the source loops forever. -/
def chunkList (k : Nat) : List String → List (List String)
  | [] => []
  | x :: xs => ((x :: xs).take k) :: chunkList k (xs.drop (k - 1))
  termination_by l => l.length
  decreasing_by simp [List.length_drop]; omega

/-- `if (!outcome.skipped && outcome.modelResults) saveCheckpoint(...)`
(lines 1127-1131): the checkpoint-save record one outcome contributes. -/
def saveFilter (o : Outcome) : Option (String × ModelResults) :=
  if o.skipped then none else o.modelResults.map (fun r => (o.modelId, r))

/-- One chunk of the bounded-concurrency loop (lines 1118-1133): run the chunk
(`Promise.all` keeps argument order), then save checkpoints for its non-skipped
outcomes, then append the chunk outcomes. -/
def runChunkStep (ctx : BenchContext)
    (st : List Outcome × List (String × ModelResults)) (chunk : List String) :
    List Outcome × List (String × ModelResults) :=
  let chunkResults := chunk.map (fun modelId => runSingleModel ctx modelId)
  let newSaves := chunkResults.filterMap saveFilter
  (st.1 ++ chunkResults, st.2 ++ newSaves)

/-- `runModelsWithConcurrency(modelIds, maxConcurrency)` (lines 1115-1136):
process the ids chunk by chunk, appending the chunk outcomes and the checkpoint
saves performed after each chunk.  Returns the outcome list and the ordered list
of (model id, results) checkpoint saves. -/
def runModelsWithConcurrency (ctx : BenchContext) (modelIds : List String)
    (maxConcurrency : Nat) : List Outcome × List (String × ModelResults) :=
  (chunkList maxConcurrency modelIds).foldl (runChunkStep ctx) ([], [])

/-- The body of the merge loop `for (const modelId of models)` (lines 1194-1205):
skip resumed models, look the model up in the outcome map (`new Map` keeps the
last entry per key), and add the results of a non-skipped outcome. -/
def mergeStep (resumeModels : List (String × ModelResults)) (outcomes : List Outcome)
    (acc : List (String × ModelResults)) (modelId : String) :
    List (String × ModelResults) :=
  if (resumeModels.lookup modelId).isSome then acc
  else
    match (outcomes.reverse).find? (fun o => decide (o.modelId = modelId)) with
    | none => acc
    | some o =>
      if o.skipped then acc
      else
        match o.modelResults with
        | some r => acc ++ [(modelId, r)]
        | none => acc

/-- The merge of `runBenchmark` (lines 1138-1206): `results.models` already holds
the resumed entries in their insertion order; then the flattened outcomes are
walked in `models` (registry/request) order, adding each non-skipped outcome's
results. -/
def mergeResults (models : List String) (resumeModels : List (String × ModelResults))
    (outcomes : List Outcome) : List (String × ModelResults) :=
  models.foldl (mergeStep resumeModels outcomes) resumeModels

/-- The prompt ids in registry order: categories in configuration order, prompts of
each category in corpus order (the `byPrompt` push order of lines 772-976). -/
def registryPromptIds (ctx : BenchContext) : List String :=
  (ctx.categories.map (fun c => ((ctx.promptsOf c).getD []).map (fun pc => pc.id))).flatten

/-! ## Checkpoint store (`run-antigravity.js` lines 1057-1105 and 1567-1604) -/

/-- The `config` object stored inside a checkpoint (lines 1072-1077). -/
structure CheckpointConfig where
  iterationsPerPrompt : Nat
  categories : List String
  enableRemediation : Bool
  securityContext : Bool
deriving DecidableEq, Repr

/-- A parsed checkpoint file (lines 1069-1079); `config` is optional because
`loadCheckpoint` reads it through `data.config?.`. -/
structure CheckpointFile where
  modelId : String
  timestamp : String
  config : Option CheckpointConfig
  results : ModelResults
deriving DecidableEq, Repr

/-- `modelId.replace(/[^a-zA-Z0-9.-]/g, "_")` (line 1060). -/
def safeId (modelId : String) : String :=
  modelId.map (fun c => if c.isAlphanum ∨ c = '.' ∨ c = '-' then c else '_')

/-- `config.securityContext ? "control" : "treatment"` (line 1057). -/
def conditionTag (securityContext : Bool) : String :=
  if securityContext then "control" else "treatment"

/-- `getCheckpointPath(modelId)` (lines 1059-1065), relative to the checkpoint
directory. -/
def getCheckpointPath (iterationsPerPrompt : Nat) (securityContext : Bool)
    (modelId : String) : String :=
  "checkpoint-" ++ safeId modelId ++ "-" ++ conditionTag securityContext ++ "-" ++
    toString iterationsPerPrompt ++ "iter.json"

/-- The checkpoint directory as a partial map from path to parse result:
`none` = no file, `some none` = file whose contents `JSON.parse` rejects,
`some (some data)` = file parsing to `data`. -/
def FileStore : Type := String → Option (Option CheckpointFile)

/-- `saveCheckpoint(modelId, modelResults)` (lines 1067-1084) as a store update:
writes the full configuration (lines 1072-1077) and the results at the
fingerprinted path. -/
def saveCheckpoint (fsys : FileStore) (iterationsPerPrompt : Nat)
    (categories : List String) (enableRemediation securityContext : Bool)
    (timestamp : String) (modelId : String) (modelResults : ModelResults) : FileStore :=
  fun p =>
    if p = getCheckpointPath iterationsPerPrompt securityContext modelId then
      some (some ⟨modelId, timestamp,
        some ⟨iterationsPerPrompt, categories, enableRemediation, securityContext⟩,
        modelResults⟩)
    else fsys p

/-- `loadCheckpoint(modelId)` (lines 1086-1105): absent file, parse failure
(the catch) and config mismatch all yield `null`; the config check compares
`data.config?.iterationsPerPrompt` and `data.config?.securityContext`. -/
def loadCheckpoint (fsys : FileStore) (iterationsPerPrompt : Nat)
    (securityContext : Bool) (modelId : String) : Option ModelResults :=
  match fsys (getCheckpointPath iterationsPerPrompt securityContext modelId) with
  | none => none
  | some none => none
  | some (some data) =>
    if data.config.map (fun c => c.iterationsPerPrompt) = some iterationsPerPrompt ∧
        data.config.map (fun c => c.securityContext) = some securityContext then
      some data.results
    else none

/-- The resume-mode scan of `main` (lines 1567-1595): for each selected model,
read its fingerprinted checkpoint path; a missing file, a `JSON.parse` failure
(the catch at line 1591) or a config mismatch leaves the model out of
`resumeModels`. -/
def resumeScan (fsys : FileStore) (selectedModels : List String)
    (iterationsArg : Nat) (securityContext : Bool) : List (String × ModelResults) :=
  selectedModels.filterMap (fun modelId =>
    match fsys (getCheckpointPath iterationsArg securityContext modelId) with
    | none => none
    | some none => none
    | some (some data) =>
      if data.config.map (fun c => c.iterationsPerPrompt) = some iterationsArg ∧
          data.config.map (fun c => c.securityContext) = some securityContext then
        some (modelId, data.results)
      else none)

/-- `const remaining = selectedModels.filter((m) => !resumeModels[m])` (line 1596). -/
def remainingAfterResume (fsys : FileStore) (selectedModels : List String)
    (iterationsArg : Nat) (securityContext : Bool) : List String :=
  selectedModels.filter (fun m =>
    ((resumeScan fsys selectedModels iterationsArg securityContext).lookup m).isNone)

/-- A tiny concrete benchmark context — one Google model in the registry, an
empty environment, no prompts — used to instantiate the orchestration theorems
on concrete inputs. -/
def witnessContext : BenchContext :=
  { env := fun _ => none
    registry := fun id =>
      if id = "gemini-3-flash" then
        some ⟨"gemini-3-flash", "google", none, some "gemini-3-flash-preview",
          "Gemini 3 Flash", "fast", ""⟩
      else none
    promptsOf := fun _ => none
    categories := ["database"]
    iterationsPerPrompt := 1
    enableRemediation := true
    securityContext := false
    oracles := ⟨fun _ _ _ => Except.ok ("", []), fun _ _ _ => Except.ok ("", [])⟩ }

/-- A minimal concrete `ModelResults` value, used as a checkpoint payload in
concrete instantiations. -/
def emptyModelResults : ModelResults :=
  ⟨0, 0, 0, 0, 0, [], [], [], ⟨0, 0, 0, 0⟩, [], [], [], [], 0, 0, 0, 0, "0%", 0,
    none, none⟩

theorem mem_jsSetAux (r : String) :
    ∀ (l seen : List String), r ∈ jsSetAux seen l ↔ r ∈ l ∧ r ∉ seen := by
  intro l
  induction l with
  | nil => intro seen; simp [jsSetAux]
  | cons x xs ih =>
    intro seen
    by_cases hx : x ∈ seen
    · rw [show jsSetAux seen (x :: xs) = jsSetAux seen xs from by simp [jsSetAux, hx]]
      rw [ih seen, List.mem_cons]
      constructor
      · rintro ⟨h1, h2⟩
        exact ⟨Or.inr h1, h2⟩
      · rintro ⟨h1 | h1, h2⟩
        · exact absurd (h1.symm ▸ hx : r ∈ seen) h2
        · exact ⟨h1, h2⟩
    · rw [show jsSetAux seen (x :: xs) = x :: jsSetAux (x :: seen) xs from by
        simp [jsSetAux, hx]]
      rw [List.mem_cons, List.mem_cons, ih (x :: seen)]
      constructor
      · rintro (h | ⟨h1, h2⟩)
        · exact ⟨Or.inl h, fun hs => hx (h ▸ hs)⟩
        · exact ⟨Or.inr h1, fun hs => h2 (List.mem_cons_of_mem x hs)⟩
      · rintro ⟨h1 | h1, h2⟩
        · exact Or.inl h1
        · by_cases hrx : r = x
          · exact Or.inl hrx
          · exact Or.inr ⟨h1, fun hs => ((List.mem_cons).mp hs).elim hrx h2⟩

theorem mem_jsSetToArray (r : String) (l : List String) :
    r ∈ jsSetToArray l ↔ r ∈ l := by
  simp [jsSetToArray, mem_jsSetAux]

theorem nodup_jsSetAux : ∀ (l seen : List String), (jsSetAux seen l).Nodup := by
  intro l
  induction l with
  | nil => intro seen; simp [jsSetAux]
  | cons x xs ih =>
    intro seen
    by_cases hx : x ∈ seen
    · simpa [jsSetAux, hx] using ih seen
    · simp only [jsSetAux, if_neg hx, List.nodup_cons]
      refine ⟨?_, ih (x :: seen)⟩
      intro hmem
      exact ((mem_jsSetAux x xs (x :: seen)).mp hmem).2 (List.mem_cons_self x seen)

theorem nodup_jsSetToArray (l : List String) : (jsSetToArray l).Nodup :=
  nodup_jsSetAux l []

theorem mem_classifyChanges_fixed (P C : List Violation) (r : String) :
    r ∈ (classifyChanges P C).fixed ↔
      r ∈ P.map (fun v => v.ruleId) ∧ r ∉ C.map (fun v => v.ruleId) := by
  simp [classifyChanges, List.mem_filter, mem_jsSetToArray]

theorem mem_classifyChanges_persisted (P C : List Violation) (r : String) :
    r ∈ (classifyChanges P C).persisted ↔
      r ∈ P.map (fun v => v.ruleId) ∧ r ∈ C.map (fun v => v.ruleId) := by
  simp [classifyChanges, List.mem_filter, mem_jsSetToArray]

theorem mem_classifyChanges_introduced (P C : List Violation) (r : String) :
    r ∈ (classifyChanges P C).introduced ↔
      r ∈ C.map (fun v => v.ruleId) ∧ r ∉ P.map (fun v => v.ruleId) := by
  simp [classifyChanges, List.mem_filter, mem_jsSetToArray]

/-- Claim C1: for every pair of finding lists (P, C), `classifyChanges(P, C)` returns
fixed, persisted and introduced rule-identifier sets that are pairwise disjoint,
with fixed ∪ persisted equal to the rule identifiers occurring in P and
introduced ∪ persisted equal to the rule identifiers occurring in C. -/
theorem classifyChanges_sets_partition (P C : List Violation) :
    ((classifyChanges P C).fixed.toFinset ∩ (classifyChanges P C).persisted.toFinset
      = ∅) ∧
    ((classifyChanges P C).fixed.toFinset ∩ (classifyChanges P C).introduced.toFinset
      = ∅) ∧
    ((classifyChanges P C).persisted.toFinset ∩ (classifyChanges P C).introduced.toFinset
      = ∅) ∧
    ((classifyChanges P C).fixed.toFinset ∪ (classifyChanges P C).persisted.toFinset
      = (P.map (fun v => v.ruleId)).toFinset) ∧
    ((classifyChanges P C).introduced.toFinset ∪ (classifyChanges P C).persisted.toFinset
      = (C.map (fun v => v.ruleId)).toFinset) := by
  refine ⟨?_, ?_, ?_, ?_, ?_⟩ <;> ext r <;>
    simp only [Finset.mem_inter, Finset.mem_union, Finset.not_mem_empty,
      List.mem_toFinset, mem_classifyChanges_fixed, mem_classifyChanges_persisted,
      mem_classifyChanges_introduced, iff_false] <;> tauto

/-- Claim C6: for every pair of finding lists (P, C), the introduced list of
`classifyChanges(P, C)` coincides with the fixed list of `classifyChanges(C, P)`
and vice versa (here even as identically ordered lists, hence as sets). -/
theorem classifyChanges_symmetric (P C : List Violation) :
    (classifyChanges P C).introduced = (classifyChanges C P).fixed ∧
    (classifyChanges P C).fixed = (classifyChanges C P).introduced :=
  ⟨rfl, rfl⟩

theorem ruleCount_eq_count (vs : List Violation) (r : String) :
    ruleCount vs r = (vs.map (fun v => v.ruleId)).count r := by
  induction vs with
  | nil => rfl
  | cons v vs ih =>
    by_cases h : v.ruleId = r <;>
      simp [ruleCount, List.filter_cons, h, List.count_cons, ← ih]

theorem sum_map_toFinset (l : List String) (hl : l.Nodup) (f : String → ℕ) :
    (l.map f).sum = ∑ r in l.toFinset, f r := by
  induction l with
  | nil => simp
  | cons x xs ih =>
    rcases List.nodup_cons.mp hl with ⟨hx, hxs⟩
    rw [List.map_cons, List.sum_cons, List.toFinset_cons,
      Finset.sum_insert (by simpa using hx), ih hxs]

theorem classifyChanges_introduced_nodup (P C : List Violation) :
    (classifyChanges P C).introduced.Nodup :=
  (nodup_jsSetToArray _).filter _

theorem classifyChanges_persisted_nodup (P C : List Violation) :
    (classifyChanges P C).persisted.Nodup :=
  (nodup_jsSetToArray _).filter _

theorem classifyChanges_introduced_toFinset (P C : List Violation) :
    (classifyChanges P C).introduced.toFinset =
      (C.map (fun v => v.ruleId)).toFinset \ (P.map (fun v => v.ruleId)).toFinset := by
  ext r
  simp only [List.mem_toFinset, Finset.mem_sdiff, mem_classifyChanges_introduced]

theorem classifyChanges_persisted_toFinset (P C : List Violation) :
    (classifyChanges P C).persisted.toFinset =
      (P.map (fun v => v.ruleId)).toFinset ∩ (C.map (fun v => v.ruleId)).toFinset := by
  ext r
  simp only [List.mem_toFinset, Finset.mem_inter, mem_classifyChanges_persisted]

theorem classifyChanges_introducedCount_eq (P C : List Violation) :
    (classifyChanges P C).introducedCount =
      ((classifyChanges P C).introduced.map (fun r => ruleCount C r)).sum := rfl

theorem classifyChanges_persistedCount_eq (P C : List Violation) :
    (classifyChanges P C).persistedCount =
      ((classifyChanges P C).persisted.map
        (fun r => min (ruleCount P r) (ruleCount C r))).sum := rfl

/-- Claim C5: for every pair of finding lists (P, C), the ChangeReport satisfies
`introducedCount + persistedCount ≤ currTotal`, with equality exactly when every
current-round rule identifier is already accounted for — i.e. when no persisted
rule occurs more often in the current round than in the previous round. -/
theorem classifyChanges_count_invariant (P C : List Violation) :
    (classifyChanges P C).introducedCount + (classifyChanges P C).persistedCount ≤
      (classifyChanges P C).currTotal ∧
    ((classifyChanges P C).introducedCount + (classifyChanges P C).persistedCount =
        (classifyChanges P C).currTotal ↔
      ∀ r ∈ (classifyChanges P C).persisted, ruleCount C r ≤ ruleCount P r) := by
  classical
  have hTot : (classifyChanges P C).currTotal = C.length := rfl
  have hI : (classifyChanges P C).introducedCount
      = ∑ r in (C.map (fun v => v.ruleId)).toFinset \
          (P.map (fun v => v.ruleId)).toFinset, (C.map (fun v => v.ruleId)).count r := by
    rw [classifyChanges_introducedCount_eq,
      sum_map_toFinset _ (classifyChanges_introduced_nodup P C),
      classifyChanges_introduced_toFinset]
    exact Finset.sum_congr rfl (fun r _ => ruleCount_eq_count C r)
  have hP : (classifyChanges P C).persistedCount
      = ∑ r in (P.map (fun v => v.ruleId)).toFinset ∩
          (C.map (fun v => v.ruleId)).toFinset,
          min ((P.map (fun v => v.ruleId)).count r)
            ((C.map (fun v => v.ruleId)).count r) := by
    rw [classifyChanges_persistedCount_eq,
      sum_map_toFinset _ (classifyChanges_persisted_nodup P C),
      classifyChanges_persisted_toFinset]
    exact Finset.sum_congr rfl
      (fun r _ => by rw [ruleCount_eq_count P r, ruleCount_eq_count C r])
  have hsplit :
      (∑ r in (C.map (fun v => v.ruleId)).toFinset \
          (P.map (fun v => v.ruleId)).toFinset, (C.map (fun v => v.ruleId)).count r)
      + (∑ r in (P.map (fun v => v.ruleId)).toFinset ∩
          (C.map (fun v => v.ruleId)).toFinset, (C.map (fun v => v.ruleId)).count r)
      = C.length := by
    have hsub : (P.map (fun v => v.ruleId)).toFinset ∩
        (C.map (fun v => v.ruleId)).toFinset ⊆ (C.map (fun v => v.ruleId)).toFinset :=
      Finset.inter_subset_right
    have hsd : (C.map (fun v => v.ruleId)).toFinset \
        ((P.map (fun v => v.ruleId)).toFinset ∩ (C.map (fun v => v.ruleId)).toFinset)
        = (C.map (fun v => v.ruleId)).toFinset \ (P.map (fun v => v.ruleId)).toFinset := by
      ext x
      simp only [Finset.mem_sdiff, Finset.mem_inter]
      tauto
    have hss := Finset.sum_sdiff
      (f := fun r => (C.map (fun v => v.ruleId)).count r) hsub
    rw [hsd] at hss
    rw [hss]
    have hm := Multiset.toFinset_sum_count_eq ((C.map (fun v => v.ruleId)) : Multiset String)
    simp at hm
    simp [hm]
  have hle : ∑ r in (P.map (fun v => v.ruleId)).toFinset ∩
        (C.map (fun v => v.ruleId)).toFinset,
        min ((P.map (fun v => v.ruleId)).count r) ((C.map (fun v => v.ruleId)).count r)
      ≤ ∑ r in (P.map (fun v => v.ruleId)).toFinset ∩
          (C.map (fun v => v.ruleId)).toFinset, (C.map (fun v => v.ruleId)).count r :=
    Finset.sum_le_sum (fun i _ => min_le_right _ _)
  constructor
  · rw [hTot, hI, hP, ← hsplit]
    omega
  · rw [hTot, hI, hP, ← hsplit]
    have hcancel :
        ((∑ r in (C.map (fun v => v.ruleId)).toFinset \
            (P.map (fun v => v.ruleId)).toFinset, (C.map (fun v => v.ruleId)).count r)
          + (∑ r in (P.map (fun v => v.ruleId)).toFinset ∩
              (C.map (fun v => v.ruleId)).toFinset,
              min ((P.map (fun v => v.ruleId)).count r)
                ((C.map (fun v => v.ruleId)).count r))
          = (∑ r in (C.map (fun v => v.ruleId)).toFinset \
              (P.map (fun v => v.ruleId)).toFinset, (C.map (fun v => v.ruleId)).count r)
            + (∑ r in (P.map (fun v => v.ruleId)).toFinset ∩
                (C.map (fun v => v.ruleId)).toFinset, (C.map (fun v => v.ruleId)).count r))
        ↔ (∑ r in (P.map (fun v => v.ruleId)).toFinset ∩
              (C.map (fun v => v.ruleId)).toFinset,
              min ((P.map (fun v => v.ruleId)).count r)
                ((C.map (fun v => v.ruleId)).count r))
            = (∑ r in (P.map (fun v => v.ruleId)).toFinset ∩
                (C.map (fun v => v.ruleId)).toFinset,
                (C.map (fun v => v.ruleId)).count r) := by omega
    rw [hcancel,
      Finset.sum_eq_sum_iff_of_le (fun i _ => min_le_right _ _)]
    constructor
    · intro h r hr
      have hrF : r ∈ (P.map (fun v => v.ruleId)).toFinset ∩
          (C.map (fun v => v.ruleId)).toFinset := by
        rw [← classifyChanges_persisted_toFinset]
        exact List.mem_toFinset.mpr hr
      have := h r hrF
      rw [ruleCount_eq_count C r, ruleCount_eq_count P r]
      exact min_eq_right_iff.mp this
    · intro h r hr
      have hrL : r ∈ (classifyChanges P C).persisted := by
        have := classifyChanges_persisted_toFinset P C
        rw [← List.mem_toFinset, this]
        exact hr
      have := h r hrL
      rw [ruleCount_eq_count C r, ruleCount_eq_count P r] at this
      exact min_eq_right_iff.mpr this

/-- Claim C3, counterexample: at the 7-group input below (degrees of freedom 6 > 5)
the raw statistic is exactly 7, which does not exceed the largest tabulated
critical value 11.07, yet `chiSquaredTest` reports the difference as significant —
because `criticalValues[df] || 5.991` falls back to 5.991 (the df=2 value), not to
the largest tabulated value. -/
theorem chiSquaredTest_fallback_counterexample :
    (chiSquaredTest [("m1", ⟨0, 1⟩), ("m2", ⟨0, 1⟩), ("m3", ⟨0, 1⟩), ("m4", ⟨0, 1⟩),
        ("m5", ⟨0, 1⟩), ("m6", ⟨0, 1⟩), ("m7", ⟨1, 1⟩)]).df = 6 ∧
    chiSquaredStat [("m1", ⟨0, 1⟩), ("m2", ⟨0, 1⟩), ("m3", ⟨0, 1⟩), ("m4", ⟨0, 1⟩),
        ("m5", ⟨0, 1⟩), ("m6", ⟨0, 1⟩), ("m7", ⟨1, 1⟩)] = 7 ∧
    ¬ (1107 / 100 : ℚ) <
      chiSquaredStat [("m1", ⟨0, 1⟩), ("m2", ⟨0, 1⟩), ("m3", ⟨0, 1⟩), ("m4", ⟨0, 1⟩),
        ("m5", ⟨0, 1⟩), ("m6", ⟨0, 1⟩), ("m7", ⟨1, 1⟩)] ∧
    (chiSquaredTest [("m1", ⟨0, 1⟩), ("m2", ⟨0, 1⟩), ("m3", ⟨0, 1⟩), ("m4", ⟨0, 1⟩),
        ("m5", ⟨0, 1⟩), ("m6", ⟨0, 1⟩), ("m7", ⟨1, 1⟩)]).significant = true := by
  refine ⟨by norm_num [chiSquaredTest], by norm_num [chiSquaredStat], ?_, ?_⟩
  · norm_num [chiSquaredStat]
  · norm_num [chiSquaredTest, chiSquaredStat, criticalValue]

/-- Claim C3 (amended): `chiSquaredTest` computes degrees of freedom as the number
of groups minus 1 and determines significance by comparing the raw statistic to a
critical-value lookup at p=0.05 covering df 1 through 5 (`run-antigravity.js`;
the `run.js` variant covers only df 1 through 3); for any df outside the table
the comparison falls back to 5.991 — the df=2 tabulated value — not to the
largest tabulated value. -/
theorem chiSquaredTest_df_lookup_fallback (modelData : List (String × GroupData))
    (h2 : 2 ≤ modelData.length) :
    (chiSquaredTest modelData).df = modelData.length - 1 ∧
    ((chiSquaredTest modelData).significant = true ↔
      criticalValue (modelData.length - 1) < chiSquaredStat modelData) ∧
    criticalValue 1 = 3841 / 1000 ∧ criticalValue 2 = 5991 / 1000 ∧
    criticalValue 3 = 7815 / 1000 ∧ criticalValue 4 = 9488 / 1000 ∧
    criticalValue 5 = 1107 / 100 ∧
    (∀ df, 5 < df → criticalValue df = 5991 / 1000) ∧
    (∀ df, 3 < df → criticalValueRunJs df = 5991 / 1000) ∧
    ((chiSquaredTestRunJs modelData).significant = true ↔
      criticalValueRunJs (modelData.length - 1) < chiSquaredStat modelData) := by
  have hlt : ¬ modelData.length < 2 := by omega
  refine ⟨?_, ?_, by norm_num [criticalValue], by norm_num [criticalValue],
    by norm_num [criticalValue], by norm_num [criticalValue],
    by norm_num [criticalValue], ?_, ?_, ?_⟩
  · simp [chiSquaredTest, hlt]
  · simp [chiSquaredTest, hlt]
  · intro df hdf
    have h1 : df ≠ 1 := by omega
    have h2' : df ≠ 2 := by omega
    have h3 : df ≠ 3 := by omega
    have h4 : df ≠ 4 := by omega
    have h5 : df ≠ 5 := by omega
    simp [criticalValue, h1, h2', h3, h4, h5]
  · intro df hdf
    have h1 : df ≠ 1 := by omega
    have h2' : df ≠ 2 := by omega
    have h3 : df ≠ 3 := by omega
    simp [criticalValueRunJs, h1, h2', h3]
  · simp [chiSquaredTestRunJs, hlt]

/-- Witness for `chiSquaredTest_df_lookup_fallback` at a concrete two-group input. -/
theorem chiSquaredTest_df_lookup_fallback_witness :
    2 ≤ ([("a", ⟨1, 2⟩), ("b", ⟨0, 2⟩)] : List (String × GroupData)).length ∧
    (chiSquaredTest [("a", ⟨1, 2⟩), ("b", ⟨0, 2⟩)]).df =
      ([("a", ⟨1, 2⟩), ("b", ⟨0, 2⟩)] : List (String × GroupData)).length - 1 :=
  ⟨by decide,
    (chiSquaredTest_df_lookup_fallback [("a", ⟨1, 2⟩), ("b", ⟨0, 2⟩)] (by decide)).1⟩

/-- Claim C9: `chiSquaredTest`'s division by the expected cell counts is unguarded:
with two groups each having successes equal to total, the pooled failure count is
zero, so the expected failure cell `total * totalFailures / grandTotal` of every
group is zero and the statistic computation `(o - e)^2 / e` divides by zero
(NaN in JavaScript) instead of returning an error or a trivial result. -/
theorem chiSquaredTest_unguarded_zero_division :
    2 ≤ ([("m1", ⟨1, 1⟩), ("m2", ⟨1, 1⟩)] : List (String × GroupData)).length ∧
    (([("m1", ⟨1, 1⟩), ("m2", ⟨1, 1⟩)] : List (String × GroupData)).all
      (fun m => decide (m.2.successes = m.2.total))) = true ∧
    ((([("m1", ⟨1, 1⟩), ("m2", ⟨1, 1⟩)] : List (String × GroupData)).map
      (fun m => m.2.total - m.2.successes)).sum) = 0 ∧
    chiSquaredHasZeroExpectedCell [("m1", ⟨1, 1⟩), ("m2", ⟨1, 1⟩)] = true := by
  refine ⟨by norm_num, by decide, by norm_num, ?_⟩
  norm_num [chiSquaredHasZeroExpectedCell]

/-- Claim C2, counterexample: a checkpoint saved under the configuration
fingerprint (iterations = 1, round count `enableRemediation` = true,
condition flag = false) is returned by a load for a run whose fingerprint is
(iterations = 1, `enableRemediation` = false, condition flag = false): the saved
file demonstrably stores `enableRemediation = true`, yet `loadCheckpoint` — which
compares only `iterationsPerPrompt` and `securityContext` and takes no round-count
argument at all — hands back the stale payload instead of treating the mismatch
as absence. -/
theorem loadCheckpoint_roundcount_not_verified :
    (saveCheckpoint (fun _ => none) 1 [] true false ("t0") ("m") emptyModelResults)
        (getCheckpointPath 1 false ("m"))
      = some (some ⟨"m", "t0", some ⟨1, [], true, false⟩, emptyModelResults⟩) ∧
    loadCheckpoint
      (saveCheckpoint (fun _ => none) 1 [] true false ("t0") ("m") emptyModelResults)
      1 false ("m") = some emptyModelResults := by
  constructor
  · simp [saveCheckpoint]
  · simp [loadCheckpoint, saveCheckpoint]

/-- Claim C2 (amended): `loadCheckpoint` verifies the stored fingerprint against
the requested one field-by-field over iteration count and condition flag only — a
mismatch in either of those two fields is treated identically to absence, and a
successful load guarantees both matched — but the round-count field
(`enableRemediation`), though stored in the checkpoint, is never verified, so a
checkpoint saved under a fingerprint differing only in round count is returned. -/
theorem loadCheckpoint_fingerprint_gate (fsys : FileStore) (iter : Nat)
    (sec : Bool) (modelId : String) (data : CheckpointFile)
    (hfile : fsys (getCheckpointPath iter sec modelId) = some (some data)) :
    ((data.config.map (fun c => c.iterationsPerPrompt) ≠ some iter ∨
        data.config.map (fun c => c.securityContext) ≠ some sec) →
      loadCheckpoint fsys iter sec modelId = none) ∧
    ((data.config.map (fun c => c.iterationsPerPrompt) = some iter ∧
        data.config.map (fun c => c.securityContext) = some sec) →
      loadCheckpoint fsys iter sec modelId = some data.results) := by
  simp only [loadCheckpoint, hfile]
  constructor
  · rintro (h | h)
    · rw [if_neg (fun hc => h hc.1)]
    · rw [if_neg (fun hc => h hc.2)]
  · intro h
    rw [if_pos h]

/-- Witness for `loadCheckpoint_fingerprint_gate`: a stored checkpoint whose
iteration count (1) differs from the requested one (2) is treated as absent. -/
theorem loadCheckpoint_fingerprint_gate_witness :
    loadCheckpoint
      (fun p => if p = getCheckpointPath 2 false ("m") then
          some (some ⟨"m", "t0", some ⟨1, [], true, false⟩, emptyModelResults⟩)
        else none)
      2 false ("m") = none :=
  (loadCheckpoint_fingerprint_gate _ 2 false ("m")
      ⟨"m", "t0", some ⟨1, [], true, false⟩, emptyModelResults⟩
      (by simp)).1 (Or.inl (by decide))

theorem lookup_resumeScan_corrupt (fsys : FileStore) (iter : Nat) (sec : Bool)
    (modelId : String)
    (hcorrupt : fsys (getCheckpointPath iter sec modelId) = some none) :
    ∀ ms : List String, (resumeScan fsys ms iter sec).lookup modelId = none := by
  intro ms
  induction ms with
  | nil => simp [resumeScan]
  | cons m ms ih =>
    by_cases hm : m = modelId
    · subst hm
      simp only [resumeScan, List.filterMap_cons, hcorrupt]
      exact ih
    · have hbeq : (modelId == m) = false :=
        beq_eq_false_iff_ne.mpr (fun h => hm h.symm)
      cases hf : fsys (getCheckpointPath iter sec m) with
      | none =>
        simp only [resumeScan, List.filterMap_cons, hf]
        exact ih
      | some d =>
        cases d with
        | none =>
          simp only [resumeScan, List.filterMap_cons, hf]
          exact ih
        | some data =>
          by_cases hcfg : (data.config.map (fun c => c.iterationsPerPrompt) = some iter ∧
              data.config.map (fun c => c.securityContext) = some sec)
          · simp only [resumeScan, List.filterMap_cons, hf, if_pos hcfg]
            simp only [List.lookup, hbeq]
            exact ih
          · simp only [resumeScan, List.filterMap_cons, hf, if_neg hcfg]
            exact ih

/-- Claim C10: if a checkpoint file for a provider exists but its contents cannot
be parsed (`JSON.parse` throws), checkpoint load returns absent rather than
raising: `loadCheckpoint` yields null, and the resume-mode scan of `main` leaves
the provider out of `resumeModels` and keeps it in the re-run list. -/
theorem checkpoint_corrupt_treated_as_absent (fsys : FileStore) (iter : Nat)
    (sec : Bool) (modelId : String) (models : List String)
    (hcorrupt : fsys (getCheckpointPath iter sec modelId) = some none)
    (hmem : modelId ∈ models) :
    loadCheckpoint fsys iter sec modelId = none ∧
    (resumeScan fsys models iter sec).lookup modelId = none ∧
    modelId ∈ remainingAfterResume fsys models iter sec := by
  have hload : loadCheckpoint fsys iter sec modelId = none := by
    simp only [loadCheckpoint, hcorrupt]
  have hscan := lookup_resumeScan_corrupt fsys iter sec modelId hcorrupt models
  refine ⟨hload, hscan, ?_⟩
  simp only [remainingAfterResume, List.mem_filter]
  exact ⟨hmem, by simp [hscan]⟩

/-- Witness for `checkpoint_corrupt_treated_as_absent`: a store holding one
unparsable checkpoint file for model "m". -/
theorem checkpoint_corrupt_treated_as_absent_witness :
    loadCheckpoint
      (fun p => if p = getCheckpointPath 1 false ("m") then some none else none)
      1 false ("m") = none ∧
    (resumeScan
      (fun p => if p = getCheckpointPath 1 false ("m") then some none else none)
      ["m"] 1 false).lookup ("m") = none ∧
    "m" ∈ remainingAfterResume
      (fun p => if p = getCheckpointPath 1 false ("m") then some none else none)
      ["m"] 1 false :=
  checkpoint_corrupt_treated_as_absent _ 1 false ("m") ["m"] (by simp)
    (by simp)

/-- The Wilson center/margin inequality `|center - p| <= margin` gives the
ordering of the interval fields for any z >= 0 and any 0 <= s <= n. -/
theorem wilsonScoreInterval_bounds_general (z : ℝ) (hz : 0 ≤ z) (s n : ℕ)
    (h : s ≤ n) :
    0 ≤ (wilsonScoreInterval s n z).lower ∧
    (wilsonScoreInterval s n z).lower ≤ (wilsonScoreInterval s n z).point ∧
    (wilsonScoreInterval s n z).point ≤ (wilsonScoreInterval s n z).upper ∧
    (wilsonScoreInterval s n z).upper ≤ 100 := by
  by_cases hn : n = 0
  · subst hn
    simp [wilsonScoreInterval]
  · have e : wilsonScoreInterval s n z =
        ⟨max 0 ((((s : ℝ) / (n : ℝ) + z * z / (2 * (n : ℝ))) / (1 + z * z / (n : ℝ)) -
            z * Real.sqrt ((s : ℝ) / (n : ℝ) * (1 - (s : ℝ) / (n : ℝ)) / (n : ℝ) +
              z * z / (4 * (n : ℝ) * (n : ℝ))) / (1 + z * z / (n : ℝ))) * 100),
          min 100 ((((s : ℝ) / (n : ℝ) + z * z / (2 * (n : ℝ))) / (1 + z * z / (n : ℝ)) +
            z * Real.sqrt ((s : ℝ) / (n : ℝ) * (1 - (s : ℝ) / (n : ℝ)) / (n : ℝ) +
              z * z / (4 * (n : ℝ) * (n : ℝ))) / (1 + z * z / (n : ℝ))) * 100),
          (s : ℝ) / (n : ℝ) * 100⟩ := by
      simp [wilsonScoreInterval, hn]
    simp only [e]
    set N : ℝ := (n : ℝ) with hNdef
    have hN : 0 < N := by
      rw [hNdef]
      exact_mod_cast Nat.pos_of_ne_zero hn
    set p : ℝ := (s : ℝ) / N with hpdef
    set A : ℝ := p * (1 - p) / N + z * z / (4 * N * N) with hAdef
    set den : ℝ := 1 + z * z / N with hdendef
    set C : ℝ := (p + z * z / (2 * N)) / den with hCdef
    set M : ℝ := z * Real.sqrt A / den with hMdef
    have hNne : N ≠ 0 := ne_of_gt hN
    have hp0 : 0 ≤ p := div_nonneg (Nat.cast_nonneg s) hN.le
    have hp1 : p ≤ 1 := by
      rw [hpdef, div_le_one hN, hNdef]
      exact_mod_cast h
    have hden : 0 < den := by
      have : 0 ≤ z * z / N := div_nonneg (mul_nonneg hz hz) hN.le
      rw [hdendef]; linarith
    have hdenne : den ≠ 0 := ne_of_gt hden
    have hA0 : 0 ≤ A := by
      have h1 : 0 ≤ p * (1 - p) / N :=
        div_nonneg (mul_nonneg hp0 (by linarith)) hN.le
      have h2 : 0 ≤ z * z / (4 * N * N) :=
        div_nonneg (mul_nonneg hz hz) (by positivity)
      rw [hAdef]; linarith
    have hid : A - (z / N * (1 / 2 - p)) ^ 2 = p * (1 - p) * (1 / N + z * z / (N * N)) := by
      rw [hAdef]
      field_simp
      ring
    have hge : 0 ≤ p * (1 - p) * (1 / N + z * z / (N * N)) := by
      have h1 : 0 ≤ p * (1 - p) := mul_nonneg hp0 (by linarith)
      have h2 : 0 ≤ 1 / N + z * z / (N * N) := by positivity
      exact mul_nonneg h1 h2
    have hx2 : (z / N * (1 / 2 - p)) ^ 2 ≤ A := by linarith
    have habs : |z / N * (1 / 2 - p)| ≤ Real.sqrt A := by
      rw [← Real.sqrt_sq_eq_abs]
      exact Real.sqrt_le_sqrt hx2
    have hCp : C - p = z * (z / N * (1 / 2 - p)) / den := by
      rw [hCdef, hdendef]
      field_simp
      ring
    have hmain : |C - p| ≤ M := by
      rw [hCp, hMdef, abs_div, abs_of_pos hden]
      gcongr
      rw [abs_mul, abs_of_nonneg hz]
      exact mul_le_mul_of_nonneg_left habs hz
    obtain ⟨hm1, hm2⟩ := abs_le.mp hmain
    refine ⟨le_max_left 0 _, ?_, ?_, min_le_left 100 _⟩
    · apply max_le
      · exact mul_nonneg hp0 (by norm_num)
      · have hcm : C - M ≤ p := by linarith
        exact mul_le_mul_of_nonneg_right hcm (by norm_num)
    · apply le_min
      · have := mul_le_mul_of_nonneg_right hp1 (show (0:ℝ) ≤ 100 by norm_num)
        linarith
      · have hcm : p ≤ C + M := by linarith
        exact mul_le_mul_of_nonneg_right hcm (by norm_num)

/-- Claim C4: for all integers `0 <= successes <= n`, `wilsonScoreInterval` at the
default z = 1.96 returns `0 <= lower <= point <= upper <= 100` (all as
percentages), and for n = 0 it returns exactly {lower: 0, upper: 0, point: 0}
through the early guard, without dividing by zero. -/
theorem wilsonScoreInterval_bounds (successes n : ℕ) (h : successes ≤ n) :
    (0 ≤ (wilsonScoreIntervalDefault successes n).lower ∧
      (wilsonScoreIntervalDefault successes n).lower ≤
        (wilsonScoreIntervalDefault successes n).point ∧
      (wilsonScoreIntervalDefault successes n).point ≤
        (wilsonScoreIntervalDefault successes n).upper ∧
      (wilsonScoreIntervalDefault successes n).upper ≤ 100) ∧
    (n = 0 → (wilsonScoreIntervalDefault successes n).lower = 0 ∧
      (wilsonScoreIntervalDefault successes n).upper = 0 ∧
      (wilsonScoreIntervalDefault successes n).point = 0) := by
  constructor
  · exact wilsonScoreInterval_bounds_general _ (by norm_num) _ _ h
  · intro hn
    subst hn
    refine ⟨?_, ?_, ?_⟩ <;> simp [wilsonScoreIntervalDefault, wilsonScoreInterval]

/-- Witness for `wilsonScoreInterval_bounds` at successes = 1, n = 3. -/
theorem wilsonScoreInterval_bounds_witness :
    (1 ≤ 3) ∧
    (0 ≤ (wilsonScoreIntervalDefault 1 3).lower ∧
      (wilsonScoreIntervalDefault 1 3).lower ≤ (wilsonScoreIntervalDefault 1 3).point ∧
      (wilsonScoreIntervalDefault 1 3).point ≤ (wilsonScoreIntervalDefault 1 3).upper ∧
      (wilsonScoreIntervalDefault 1 3).upper ≤ 100) :=
  ⟨by norm_num, (wilsonScoreInterval_bounds 1 3 (by norm_num)).1⟩

theorem chunkList_flatten (k : Nat) (hk : 1 ≤ k) :
    ∀ l : List String, (chunkList k l).flatten = l
  | [] => by simp [chunkList]
  | x :: xs => by
    have ih := chunkList_flatten k hk (xs.drop (k - 1))
    obtain ⟨m, rfl⟩ : ∃ m, k = m + 1 := ⟨k - 1, by omega⟩
    rw [chunkList, List.flatten_cons, ih]
    simp only [Nat.add_sub_cancel, List.take_succ_cons, List.cons_append,
      List.take_append_drop]
  termination_by l => l.length
  decreasing_by simp [List.length_drop]; omega

theorem runModels_foldl (ctx : BenchContext) :
    ∀ (chunks : List (List String)) (acc : List Outcome × List (String × ModelResults)),
      chunks.foldl (runChunkStep ctx) acc
      = (acc.1 ++ chunks.flatten.map (fun modelId => runSingleModel ctx modelId),
         acc.2 ++ (chunks.flatten.map (fun modelId => runSingleModel ctx modelId)).filterMap
           saveFilter) := by
  intro chunks
  induction chunks with
  | nil => intro acc; simp
  | cons c cs ih =>
    intro acc
    rw [List.foldl_cons, ih]
    simp [runChunkStep, List.append_assoc]

theorem runModelsWithConcurrency_eq (ctx : BenchContext) (modelIds : List String)
    (k : Nat) (hk : 1 ≤ k) :
    runModelsWithConcurrency ctx modelIds k
      = (modelIds.map (fun modelId => runSingleModel ctx modelId),
         (modelIds.map (fun modelId => runSingleModel ctx modelId)).filterMap saveFilter) := by
  rw [runModelsWithConcurrency, runModels_foldl, chunkList_flatten k hk]
  simp

theorem runSingleModel_modelId (ctx : BenchContext) (modelId : String) :
    (runSingleModel ctx modelId).modelId = modelId := by
  unfold runSingleModel
  split
  · rfl
  · split <;> rfl

theorem applyViolation_byPrompt (acc : ModelAccum) (v : Violation) :
    (applyViolation acc v).byPrompt = acc.byPrompt := by
  unfold applyViolation
  repeat' split
  all_goals rfl

theorem foldl_applyViolation_byPrompt (vs : List Violation) :
    ∀ acc : ModelAccum, (vs.foldl applyViolation acc).byPrompt = acc.byPrompt := by
  induction vs with
  | nil => intro acc; rfl
  | cons v vs ih =>
    intro acc
    rw [List.foldl_cons, ih, applyViolation_byPrompt]

theorem runIteration_byPrompt (oracles : Oracles) (er : Bool)
    (modelId promptId : String) (i : Nat) (acc : ModelAccum) :
    (runIteration oracles er modelId promptId i acc).1.byPrompt = acc.byPrompt := by
  unfold runIteration
  cases hg : oracles.generate modelId promptId i with
  | error e => rfl
  | ok pr =>
    simp only []
    repeat' split
    all_goals simp [foldl_applyViolation_byPrompt]

theorem runPromptIterations_byPrompt (oracles : Oracles) (er : Bool)
    (modelId promptId : String) (n : Nat) (acc : ModelAccum) :
    (runPromptIterations oracles er modelId promptId n acc).1.byPrompt = acc.byPrompt := by
  unfold runPromptIterations
  generalize List.range n = is
  suffices h : ∀ st : ModelAccum × List IterationRecord,
      (is.foldl (fun st i =>
        let next := runIteration oracles er modelId promptId i st.1
        (next.1, st.2 ++ [next.2])) st).1.byPrompt = st.1.byPrompt from h (acc, [])
  induction is with
  | nil => intro st; rfl
  | cons i is ih =>
    intro st
    rw [List.foldl_cons, ih]
    exact runIteration_byPrompt oracles er modelId promptId i st.1

theorem promptFold_byPrompt_ids (ctx : BenchContext) (modelId : String) :
    ∀ (ps : List PromptCase) (acc : ModelAccum),
      ((ps.foldl (promptStep ctx modelId) acc).byPrompt).map (fun pr => pr.id)
        = acc.byPrompt.map (fun pr => pr.id) ++ ps.map (fun pc => pc.id) := by
  intro ps
  induction ps with
  | nil => intro acc; simp
  | cons pc ps ih =>
    intro acc
    rw [List.foldl_cons, ih]
    have hstep : ((promptStep ctx modelId acc pc).byPrompt).map (fun pr => pr.id)
        = acc.byPrompt.map (fun pr => pr.id) ++ [pc.id] := by
      unfold promptStep
      simp [runPromptIterations_byPrompt]
    rw [hstep]
    simp

theorem categoryFold_byPrompt_ids (ctx : BenchContext) (modelId : String) :
    ∀ (cats : List String) (acc : ModelAccum),
      ((cats.foldl (categoryStep ctx modelId) acc).byPrompt).map (fun pr => pr.id)
        = acc.byPrompt.map (fun pr => pr.id) ++
          (cats.map (fun c => ((ctx.promptsOf c).getD []).map (fun pc => pc.id))).flatten := by
  intro cats
  induction cats with
  | nil => intro acc; simp
  | cons c cs ih =>
    intro acc
    rw [List.foldl_cons, ih]
    have hstep : ((categoryStep ctx modelId acc c).byPrompt).map (fun pr => pr.id)
        = acc.byPrompt.map (fun pr => pr.id) ++
            ((ctx.promptsOf c).getD []).map (fun pc => pc.id) := by
      unfold categoryStep
      cases hc : ctx.promptsOf c with
      | none => simp
      | some prompts => simp [promptFold_byPrompt_ids]
    rw [List.map_cons, List.flatten_cons, hstep]
    simp

theorem runSingleModel_byPrompt_ids (ctx : BenchContext) (modelId : String) :
    ((runSingleModel ctx modelId).modelResults).map
        (fun mr => mr.byPrompt.map (fun pr => pr.id))
      = ((runSingleModel ctx modelId).modelResults).map
        (fun _ => registryPromptIds ctx) := by
  unfold runSingleModel
  split
  · rfl
  · split
    · rfl
    · show Option.map _ (some _) = Option.map _ (some _)
      rw [Option.map_some', Option.map_some']
      have hfin : ∀ acc : ModelAccum, (finalizeResults acc).byPrompt = acc.byPrompt :=
        fun acc => rfl
      congr 1
      rw [hfin, categoryFold_byPrompt_ids]
      simp [registryPromptIds, initAccum]

theorem mergeStep_cases (resumeModels : List (String × ModelResults))
    (outcomes : List Outcome) (acc : List (String × ModelResults)) (m : String) :
    mergeStep resumeModels outcomes acc m = acc ∨
    ∃ o r, o ∈ outcomes ∧ o.modelId = m ∧ o.skipped = false ∧
      o.modelResults = some r ∧
      mergeStep resumeModels outcomes acc m = acc ++ [(m, r)] := by
  unfold mergeStep
  split
  · exact Or.inl rfl
  · split
    · exact Or.inl rfl
    · next o hfind =>
      split
      · exact Or.inl rfl
      · next hsk =>
        split
        · next r hres =>
          have homem : o ∈ outcomes :=
            List.mem_reverse.mp (List.mem_of_find?_eq_some hfind)
          have hoid : o.modelId = m := by
            have hp := List.find?_some hfind
            simpa using hp
          exact Or.inr ⟨o, r, homem, hoid, by simpa using hsk, hres, rfl⟩
        · exact Or.inl rfl

theorem mergeResults_keys_sublist (resumeModels : List (String × ModelResults))
    (outcomes : List Outcome) :
    ∀ (models : List String) (acc : List (String × ModelResults)),
      List.Sublist
        ((models.foldl (mergeStep resumeModels outcomes) acc).map (fun e => e.1))
        (acc.map (fun e => e.1) ++ models) := by
  intro models
  induction models with
  | nil => intro acc; simp
  | cons m ms ih =>
    intro acc
    rw [List.foldl_cons]
    rcases mergeStep_cases resumeModels outcomes acc m with h | ⟨o, r, _, _, _, _, h⟩
    · rw [h]
      exact (ih acc).trans ((List.sublist_cons_self m ms).append_left _)
    · rw [h]
      have := ih (acc ++ [(m, r)])
      simpa [List.append_assoc] using this

theorem mergeResults_skipped_absent (resumeModels : List (String × ModelResults))
    (outcomes : List Outcome) (modelId : String)
    (hskipall : ∀ o ∈ outcomes, o.modelId = modelId → o.skipped = true) :
    ∀ (models : List String) (acc : List (String × ModelResults)),
      modelId ∉ acc.map (fun e => e.1) →
      modelId ∉ ((models.foldl (mergeStep resumeModels outcomes) acc).map (fun e => e.1)) := by
  intro models
  induction models with
  | nil => intro acc h; exact h
  | cons m ms ih =>
    intro acc hacc
    rw [List.foldl_cons]
    apply ih
    rcases mergeStep_cases resumeModels outcomes acc m with h | ⟨o, r, homem, hoid, hsk, _, h⟩
    · rw [h]; exact hacc
    · rw [h]
      by_cases hm : m = modelId
      · subst hm
        exact absurd (hskipall o homem hoid) (by simp [hsk])
      · simp only [List.map_append, List.map_cons, List.map_nil, List.mem_append,
          List.mem_cons, List.not_mem_nil]
        rintro (hin | hin)
        · exact hacc hin
        · rcases hin with heq | hfalse
          · exact hm heq.symm
          · exact hfalse

theorem runSingleModel_skip (ctx : BenchContext) (modelId : String)
    (cfg : ModelConfig)
    (hreg : ctx.registry modelId = some cfg)
    (hprov : cfg.provider = "google")
    (hkey : hasGoogleApiKey ctx.env = false) :
    runSingleModel ctx modelId = ⟨modelId, none, true⟩ := by
  simp only [runSingleModel, hreg]
  rw [if_pos ⟨hprov, hkey⟩]

/-- Claim C7: if a provider's prerequisites are unmet (a Google model with no
GEMINI_API_KEY or GOOGLE_API_KEY set), the runner short-circuits immediately and
returns the skipped marker; checkpoint save is never called for that provider
(its id never appears among the saves); the skipped outcome is present in the raw
outcome list; and the provider is absent from the merged `results.models` map the
`BenchmarkSummary` denominators are computed from. -/
theorem skipped_provider_isolated (ctx : BenchContext) (modelId : String) (cfg : ModelConfig)
    (hreg : ctx.registry modelId = some cfg)
    (hprov : cfg.provider = "google")
    (hkey : hasGoogleApiKey ctx.env = false) :
    runSingleModel ctx modelId = ⟨modelId, none, true⟩ ∧
    (∀ ids (k : Nat), 1 ≤ k →
      modelId ∉ ((runModelsWithConcurrency ctx ids k).2.map (fun e => e.1))) ∧
    (∀ ids (k : Nat), 1 ≤ k → modelId ∈ ids →
      Outcome.mk modelId none true ∈ (runModelsWithConcurrency ctx ids k).1) ∧
    (∀ ids (k : Nat) models resumeModels, 1 ≤ k →
      modelId ∉ resumeModels.map (fun e => e.1) →
      modelId ∉ ((mergeResults models resumeModels
        (runModelsWithConcurrency ctx ids k).1).map (fun e => e.1))) := by
  have hskip := runSingleModel_skip ctx modelId cfg hreg hprov hkey
  have hskipall : ∀ ids : List String,
      ∀ o ∈ ids.map (fun id => runSingleModel ctx id),
        o.modelId = modelId → o.skipped = true := by
    intro ids o ho hid
    rcases List.mem_map.mp ho with ⟨id, _, rfl⟩
    rw [runSingleModel_modelId] at hid
    subst hid
    rw [hskip]
  refine ⟨hskip, ?_, ?_, ?_⟩
  · intro ids k hk hmem
    rw [runModelsWithConcurrency_eq ctx ids k hk] at hmem
    rcases List.mem_map.mp hmem with ⟨e, he, hekey⟩
    rcases List.mem_filterMap.mp he with ⟨o, ho, hsv⟩
    have hsk := hskipall ids o ho
    unfold saveFilter at hsv
    by_cases hs : o.skipped = true
    · rw [if_pos hs] at hsv
      exact absurd hsv (by simp)
    · rw [if_neg hs] at hsv
      rcases Option.map_eq_some'.mp hsv with ⟨r, hr, hfr⟩
      have hid : o.modelId = modelId := by
        rw [← hfr] at hekey
        exact hekey
      exact hs (hsk hid)
  · intro ids k hk hmem
    rw [runModelsWithConcurrency_eq ctx ids k hk]
    exact List.mem_map.mpr ⟨modelId, hmem, hskip⟩
  · intro ids k models resumeModels hk hres
    rw [runModelsWithConcurrency_eq ctx ids k hk]
    exact mergeResults_skipped_absent resumeModels _ modelId (hskipall ids) models
      resumeModels hres

/-- Claim C8: for one provider and a fixed prompt set, running at concurrency 1
and at concurrency 4 yields identical outcomes and saves (hence identical
byPrompt ordering and aggregate counts); within one provider every produced
`byPrompt` list is in registry order (categories in configuration order, prompts
in corpus order) regardless of concurrency; and the merged model map is in
registry order (its key list is a sublist of the requested `models` order)
before the summary is computed. -/
theorem concurrency_order_determinism (ctx : BenchContext) (ids models : List String)
    (resumeModels : List (String × ModelResults)) :
    runModelsWithConcurrency ctx ids 4 = runModelsWithConcurrency ctx ids 1 ∧
    mergeResults models resumeModels (runModelsWithConcurrency ctx ids 4).1
      = mergeResults models resumeModels (runModelsWithConcurrency ctx ids 1).1 ∧
    (∀ id : String,
      ((runSingleModel ctx id).modelResults).map
          (fun mr => mr.byPrompt.map (fun pr => pr.id))
        = ((runSingleModel ctx id).modelResults).map
          (fun _ => registryPromptIds ctx)) ∧
    List.Sublist
      ((mergeResults models [] (runModelsWithConcurrency ctx ids 4).1).map
        (fun e => e.1))
      models := by
  have h41 : runModelsWithConcurrency ctx ids 4 = runModelsWithConcurrency ctx ids 1 := by
    rw [runModelsWithConcurrency_eq ctx ids 4 (by norm_num),
      runModelsWithConcurrency_eq ctx ids 1 (by norm_num)]
  refine ⟨h41, by rw [h41], fun id => runSingleModel_byPrompt_ids ctx id, ?_⟩
  have h := mergeResults_keys_sublist [] (runModelsWithConcurrency ctx ids 4).1 models []
  simpa [mergeResults] using h

/-- Witness for `skipped_provider_isolated`: in the concrete context the Google
model with no key is skipped. -/
theorem skipped_provider_isolated_witness :
    runSingleModel witnessContext ("gemini-3-flash") =
      ⟨"gemini-3-flash", none, true⟩ :=
  (skipped_provider_isolated witnessContext ("gemini-3-flash")
      ⟨"gemini-3-flash", "google", none, some "gemini-3-flash-preview",
        "Gemini 3 Flash", "fast", ""⟩
      (by simp [witnessContext]) rfl rfl).1

/-- Witness for `classifyChanges_count_invariant` at a concrete pair of finding
lists (the "hydra" shape: previous {a}, current {a, b}). -/
theorem classifyChanges_count_invariant_witness :
    (classifyChanges
        [⟨"a", "error", "m", 1, 1, none, "database", none, none, none, none, none, none⟩]
        [⟨"a", "error", "m", 1, 1, none, "database", none, none, none, none, none, none⟩,
         ⟨"b", "error", "m", 2, 1, none, "database", none, none, none, none, none, none⟩]).introducedCount
      + (classifyChanges
        [⟨"a", "error", "m", 1, 1, none, "database", none, none, none, none, none, none⟩]
        [⟨"a", "error", "m", 1, 1, none, "database", none, none, none, none, none, none⟩,
         ⟨"b", "error", "m", 2, 1, none, "database", none, none, none, none, none, none⟩]).persistedCount
      ≤ (classifyChanges
        [⟨"a", "error", "m", 1, 1, none, "database", none, none, none, none, none, none⟩]
        [⟨"a", "error", "m", 1, 1, none, "database", none, none, none, none, none, none⟩,
         ⟨"b", "error", "m", 2, 1, none, "database", none, none, none, none, none, none⟩]).currTotal :=
  (classifyChanges_count_invariant
    [⟨"a", "error", "m", 1, 1, none, "database", none, none, none, none, none, none⟩]
    [⟨"a", "error", "m", 1, 1, none, "database", none, none, none, none, none, none⟩,
     ⟨"b", "error", "m", 2, 1, none, "database", none, none, none, none, none, none⟩]).1
